import Mathlib

/-!
Shallow embedding of the DharmaGuard surveillance core, translated from
`src/core-engine/include/surveillance/trade_pattern_detector.hpp` and
`src/core-engine/src/surveillance/trade_pattern_detector.cpp`.

Modelling choices:
* wall-clock instants (`std::chrono::system_clock::time_point`) are integers
  (seconds); per-trade processing durations are naturals (nanoseconds);
* `double` fields are rationals;
* the engine's mutable members (`running_`, the memory pool, the lock-free
  ingress queue, `context_cache_`, `detectors_`, the atomic counters, the
  stored `statistics_` record and the alert queue) become an explicit
  `EngineState` record threaded through the operations;
* each `spdlog` call site becomes a structured `LogEvent` value, so branches
  whose only effect is logging stay observable;
* the `tbb::parallel_for` detector fan-out is modelled as a sequential fold
  over the enabled detectors (the claims considered here concern counters,
  log records and the shared context snapshot, all insensitive to fan-out
  interleaving);
* a detector's virtual `detect_pattern` may throw, which is modelled as an
  `Except String` result.
-/

namespace DharmaGuard

/-- `TradeData::TradeType` from the header. -/
inductive TradeType where
  | BUY | SELL | SHORT_SELL | COVER
deriving DecidableEq

/-- `TradeData::MarketSegment` from the header. -/
inductive MarketSegment where
  | EQUITY | FUTURES | OPTIONS | COMMODITY | CURRENCY
deriving DecidableEq

/-- `struct TradeData` from the header (timestamps as integer seconds,
doubles as rationals). -/
structure TradeData where
  trade_id : String := ""
  instrument_symbol : String := ""
  account_id : String := ""
  client_id : String := ""
  trade_type : TradeType := .BUY
  segment : MarketSegment := .EQUITY
  quantity : Nat := 0
  price : Rat := 0
  value : Rat := 0
  exchange : String := ""
  timestamp : Int := 0
  order_id : String := ""
  trader_id : String := ""
  is_own_account : Bool := false
  brokerage : Rat := 0
  taxes : Rat := 0
  instrument_id_hash : Nat := 0
  account_id_hash : Nat := 0
  client_id_hash : Nat := 0
deriving DecidableEq

/-- `TradeData::is_valid` from the header: non-empty `trade_id` and
`instrument_symbol`, positive `quantity`, `price` and `value`. -/
def TradeData.is_valid (t : TradeData) : Bool :=
  !(t.trade_id == "") && !(t.instrument_symbol == "") &&
    decide (0 < t.quantity) && decide ((0 : Rat) < t.price) &&
    decide ((0 : Rat) < t.value)

/-- `struct HistoricalContext` from the header.  `lookback_window` is in the
same time unit as trade timestamps (seconds); the C++ default of
`std::chrono::minutes{5}` becomes `300`. -/
structure HistoricalContext where
  lookback_window : Int := 300
  recent_trades : List TradeData := []
  avg_volume : Rat := 0
  avg_price : Rat := 0
  price_volatility : Rat := 0
  bid_price : Rat := 0
  ask_price : Rat := 0
  bid_quantity : Nat := 0
  ask_quantity : Nat := 0
  account_recent_trades : List TradeData := []
  account_total_volume : Rat := 0
  related_accounts : List String := []
  related_instruments : List String := []
deriving DecidableEq

/-- Modelled from the spec: alert severity levels (§3 "severity ∈
{LOW, MEDIUM, HIGH, CRITICAL}"); `surveillance_alert.hpp` is not under
`src/`. -/
inductive AlertSeverity where
  | LOW | MEDIUM | HIGH | CRITICAL
deriving DecidableEq

/-- Modelled from the spec: `SurveillanceAlert` fields per §3 ("alert_type,
title, description, severity, pattern_name, trade_id, timestamp");
`surveillance_alert.hpp` is not under `src/`.  The `.cpp` only reads
`title`. -/
structure SurveillanceAlert where
  alert_type : String := ""
  title : String := ""
  description : String := ""
  severity : AlertSeverity := .LOW
  pattern_name : String := ""
  trade_id : String := ""
  timestamp : Int := 0
deriving DecidableEq

/-- Modelled from the spec: a detector configuration is an opaque parameter
set (§4.4); `pattern_config.hpp` is not under `src/`. -/
structure PatternConfig where
  params : List (String × Rat) := []
deriving DecidableEq

/-- An `IPatternDetector` instance: enabled flag, installed configuration and
the (possibly throwing) `detect_pattern` body. -/
structure Detector where
  enabled : Bool := true
  config : PatternConfig := {}
  detect : TradeData → HistoricalContext → Except String (Option SurveillanceAlert) :=
    fun _ _ => .ok none

/-- One structured record per `spdlog` call site reachable from the modelled
operations (format string fixed per site, arguments captured). -/
inductive LogEvent where
  | invalidTrade (tradeId : String)
  | futureTimestamp (tradeId : String)
  | invalidPriceQty (tradeId : String)
  | poolExhausted (tradeId : String)
  | queueFull (tradeId : String)
  | alertGenerated (detector : String) (title : String) (tradeId : String)
  | detectorError (detector : String) (msg : String)
  | patternToggled (name : String) (enabled : Bool)
  | patternNotFound (name : String)
  | configUpdated (name : String)
  | detectorRegistered (name : String)
deriving DecidableEq

/-- `struct ProcessingStats` from the header (per-pattern maps as association
lists). -/
structure ProcessingStats where
  total_trades_processed : Nat := 0
  total_alerts_generated : Nat := 0
  queue_size : Nat := 0
  avg_processing_time_ns : Nat := 0
  peak_processing_time_ns : Nat := 0
  throughput_trades_per_second : Rat := 0
  cpu_utilization_percent : Rat := 0
  memory_usage_bytes : Nat := 0
  last_updated : Int := 0
  pattern_alerts_count : List (String × Nat) := []
  pattern_processing_time_ns : List (String × Nat) := []
deriving DecidableEq

/-- The engine's mutable members gathered into one record: `running_`, the
memory pool (free-slot count), the bounded ingress queue, `context_cache_`,
the detector registry, the atomic counters, the stored `statistics_` record
(copied by `get_statistics`), `last_stats_update_`, the alert queue and the
log. -/
structure EngineState where
  running : Bool := false
  poolFree : Nat := 1000000
  queueCapacity : Nat := 1000000
  queue : List TradeData := []
  contextCache : List (String × HistoricalContext) := []
  detectors : List (String × Detector) := []
  trades_processed : Nat := 0
  alerts_generated : Nat := 0
  total_processing_time_ns : Nat := 0
  peak_processing_time_ns : Nat := 0
  statistics : ProcessingStats := {}
  last_stats_update : Int := 0
  alertQueue : List SurveillanceAlert := []
  log : List LogEvent := []

/-- First-match lookup in an association list (the map `find`). -/
def assocFind {α : Type} (l : List (String × α)) (k : String) : Option α :=
  (l.find? (fun p => p.1 == k)).map (fun p => p.2)

/-- Insert-or-replace in an association list (map `operator[]` assignment). -/
def assocInsert {α : Type} (l : List (String × α)) (k : String) (v : α) :
    List (String × α) :=
  if l.any (fun p => p.1 == k) then
    l.map (fun p => if p.1 == k then (k, v) else p)
  else
    l ++ [(k, v)]

/-- The `context_cache_` key built in `process_trade_internal`:
`trade.instrument_symbol + "_" + trade.account_id`, no escaping. -/
def contextKey (t : TradeData) : String :=
  t.instrument_symbol ++ "_" ++ t.account_id

/-- The context-update step of `process_trade_internal`: append the trade,
then erase (via `remove_if`) every retained trade with
`t.timestamp < trade.timestamp - lookback_window`.  The derived statistics
fields are not touched. -/
def updateContext (ctx : HistoricalContext) (trade : TradeData) : HistoricalContext :=
  let appended := ctx.recent_trades ++ [trade]
  let cutoff := trade.timestamp - ctx.lookback_window
  { ctx with recent_trades := appended.filter (fun t => !decide (t.timestamp < cutoff)) }

/-- The context value built by `process_trade_internal` and passed to every
detector: the cached context for the trade's key (default-constructed when
absent) updated with the trade. -/
def contextSnapshot (s : EngineState) (trade : TradeData) : HistoricalContext :=
  updateContext ((assocFind s.contextCache (contextKey trade)).getD {}) trade

/-- One iteration of the detector fan-out loop in `process_trade_internal`:
invoke the detector on the trade with the shared context snapshot; an emitted
alert is pushed to the alert queue and counted, a thrown error is caught and
logged against the detector's name. -/
def fanoutStep (trade : TradeData) (context : HistoricalContext)
    (st : EngineState) (d : String × Detector) : EngineState :=
  match d.2.detect trade context with
  | .ok (some alert) =>
      { st with
          alertQueue := st.alertQueue ++ [alert]
          alerts_generated := st.alerts_generated + 1
          log := st.log ++ [.alertGenerated d.1 alert.title trade.trade_id] }
  | .ok none => st
  | .error msg => { st with log := st.log ++ [.detectorError d.1 msg] }

/-- The detector fan-out of `process_trade_internal`: every detector sees the
same trade and context snapshot, and the loop continues with the remaining
detectors whatever each one returns or throws. -/
def detectorFanout (trade : TradeData) (context : HistoricalContext)
    (s : EngineState) (ds : List (String × Detector)) : EngineState :=
  ds.foldl (fanoutStep trade context) s

/-- `TradePatternDetector::process_trade_internal`: look up / update / store
the context for the trade's key, then fan the trade out to the enabled
detectors with that snapshot. -/
def process_trade_internal (s : EngineState) (trade : TradeData) : EngineState :=
  let context := contextSnapshot s trade
  let s1 := { s with contextCache := assocInsert s.contextCache (contextKey trade) context }
  detectorFanout trade context s1 (s.detectors.filter (fun d => d.2.enabled))

/-- `TradePatternDetector::validate_trade_data`: `is_valid`, then reject
future-dated timestamps, then the (redundant) price/quantity re-check. -/
def validate_trade_data (now : Int) (t : TradeData) : Bool :=
  if t.is_valid = false then false
  else if now < t.timestamp then false
  else if t.price ≤ 0 ∨ t.quantity = 0 then false
  else true

/-- `TradePatternDetector::process_trade` (the spec's `submit`): reject when
not running, reject invalid trades, allocate a pool slot (fail when
exhausted), push to the bounded ingress queue (on failure deallocate the slot
and reject), else enqueue. -/
def process_trade (s : EngineState) (now : Int) (trade : TradeData) :
    EngineState × Bool :=
  if s.running = false then (s, false)
  else if validate_trade_data now trade = false then
    ({ s with log := s.log ++ [.invalidTrade trade.trade_id] }, false)
  else if s.poolFree = 0 then
    ({ s with log := s.log ++ [.poolExhausted trade.trade_id] }, false)
  else
    let afterAlloc := s.poolFree - 1
    if s.queueCapacity ≤ s.queue.length then
      ({ s with poolFree := afterAlloc + 1, log := s.log ++ [.queueFull trade.trade_id] }, false)
    else
      ({ s with poolFree := afterAlloc, queue := s.queue ++ [trade] }, true)

/-- The per-trade body of `TradePatternDetector::worker_thread_func`, with the
measured processing duration `delta` (nanoseconds) as an oracle input:
process the trade, add `delta` to the running total, CAS-update the peak
(sequentially: take the maximum), count the trade and return the slot to the
pool. -/
def worker_step (s : EngineState) (trade : TradeData) (delta : Nat) : EngineState :=
  let s1 := process_trade_internal s trade
  { s1 with
      total_processing_time_ns := s1.total_processing_time_ns + delta
      peak_processing_time_ns :=
        if s1.peak_processing_time_ns < delta then delta else s1.peak_processing_time_ns
      trades_processed := s1.trades_processed + 1
      poolFree := s1.poolFree + 1 }

/-- A worker draining a list of (trade, measured duration) pairs. -/
def workerRun (s : EngineState) (l : List (TradeData × Nat)) : EngineState :=
  l.foldl (fun st p => worker_step st p.1 p.2) s

/-- `TradePatternDetector::toggle_pattern`: flip the enabled flag of a
registered detector, or only log a warning when the name is unknown. -/
def toggle_pattern (s : EngineState) (name : String) (flag : Bool) : EngineState :=
  match assocFind s.detectors name with
  | some d =>
      { s with
          detectors := assocInsert s.detectors name { d with enabled := flag }
          log := s.log ++ [.patternToggled name flag] }
  | none => { s with log := s.log ++ [.patternNotFound name] }

/-- `TradePatternDetector::update_pattern_config`: forward the new
configuration to a registered detector, or only log a warning when the name
is unknown. -/
def update_pattern_config (s : EngineState) (name : String) (cfg : PatternConfig) :
    EngineState :=
  match assocFind s.detectors name with
  | some d =>
      { s with
          detectors := assocInsert s.detectors name { d with config := cfg }
          log := s.log ++ [.configUpdated name] }
  | none => { s with log := s.log ++ [.patternNotFound name] }

/-- `TradePatternDetector::register_pattern_detector`: insert-or-replace in
the registry. -/
def register_pattern_detector (s : EngineState) (name : String) (d : Detector) :
    EngineState :=
  { s with
      detectors := assocInsert s.detectors name d
      log := s.log ++ [.detectorRegistered name] }

/-- `TradePatternDetector::get_statistics`: copy the stored `statistics_`
record, overwrite the trade / alert / queue-size counters from the live
counters, recompute throughput when wall-clock time has elapsed since
construction, and stamp `last_updated`.  Nothing else of the copy (in
particular `avg_processing_time_ns` and `peak_processing_time_ns`) is
recomputed. -/
def get_statistics (s : EngineState) (now : Int) : ProcessingStats :=
  let stats := s.statistics
  let stats :=
    { stats with
        total_trades_processed := s.trades_processed
        total_alerts_generated := s.alerts_generated
        queue_size := s.queue.length }
  let duration := now - s.last_stats_update
  let stats :=
    if 0 < duration then
      { stats with
          throughput_trades_per_second := (s.trades_processed : Rat) / (duration : Rat) }
    else stats
  { stats with last_updated := now }

/-- The external operations that mutate engine state, for reasoning about
arbitrary runs. -/
inductive EngineOp where
  | submit (now : Int) (trade : TradeData)
  | workerPop (delta : Nat)
  | toggle (name : String) (flag : Bool)
  | updateConfig (name : String) (cfg : PatternConfig)
  | registerDetector (name : String) (d : Detector)

/-- Apply one operation; `workerPop` pops the ingress queue head (if any) and
runs the worker body on it. -/
def applyOp (s : EngineState) : EngineOp → EngineState
  | .submit now trade => (process_trade s now trade).1
  | .workerPop delta =>
      match s.queue with
      | [] => s
      | trade :: rest => worker_step { s with queue := rest } trade delta
  | .toggle name flag => toggle_pattern s name flag
  | .updateConfig name cfg => update_pattern_config s name cfg
  | .registerDetector name d => register_pattern_detector s name d

/-- Run a sequence of operations. -/
def engineRun (s : EngineState) (ops : List EngineOp) : EngineState :=
  ops.foldl applyOp s

/-- A freshly constructed, started engine with an empty registry. -/
def initEngine : EngineState := { running := true }

/-- Number of detector-error log records charged to `name` (each corresponds
to one caught `detect_pattern` failure logged by the worker). -/
def detector_error_count (s : EngineState) (name : String) : Nat :=
  (s.log.filter
    (fun e =>
      match e with
      | .detectorError n _ => n == name
      | _ => false)).length

/-- Definition following the spec's words (§3): `is_valid(trade) ⇔
trade_id ≠ ∅ ∧ instrument_symbol ≠ ∅ ∧ quantity > 0 ∧ price > 0 ∧
value > 0 ∧ timestamp ≤ now`. -/
def spec_is_valid (now : Int) (t : TradeData) : Bool :=
  !(t.trade_id == "") && !(t.instrument_symbol == "") &&
    decide (0 < t.quantity) && decide ((0 : Rat) < t.price) &&
    decide ((0 : Rat) < t.value) && decide (t.timestamp ≤ now)

/-- Definition following the spec's words: the average volume of the trades
in the retained window. -/
def spec_avg_volume (l : List TradeData) : Rat :=
  (l.map (fun t => (t.quantity : Rat))).sum / (l.length : Rat)

/-- Definition following the spec's words: the average price of the trades in
the retained window. -/
def spec_avg_price (l : List TradeData) : Rat :=
  (l.map (fun t => t.price)).sum / (l.length : Rat)

/-- A valid concrete trade, for scenarios. -/
def mkTrade (id sym acc : String) (ts : Int) : TradeData :=
  { trade_id := id, instrument_symbol := sym, account_id := acc,
    quantity := 100, price := 10, value := 1000, timestamp := ts }

/-! ### Concrete scenario states -/

/-- Spec scenario S3: the key (INST1, ACC1) configured with a 60-second
lookback window. -/
def s3_state0 : EngineState :=
  { running := true, contextCache := [("INST1_ACC1", { lookback_window := 60 })] }

/-- S3 state after processing the t=0s and t=30s trades. -/
def s3_state2 : EngineState :=
  process_trade_internal
    (process_trade_internal s3_state0 (mkTrade "S3a" "INST1" "ACC1" 0))
    (mkTrade "S3b" "INST1" "ACC1" 30)

/-- The t=90s trade of scenario S3. -/
def s3_trade90 : TradeData := mkTrade "S3c" "INST1" "ACC1" 90

/-- A detector whose `detect_pattern` always throws. -/
def throwDetector : Detector := { detect := fun _ _ => .error "boom" }

/-- A detector that alerts (title "X") on every trade. -/
def alwaysDetector : Detector :=
  { detect := fun t _ => .ok (some { title := "X", trade_id := t.trade_id }) }

/-- A detector that never alerts and never throws. -/
def noopDetector : Detector := { detect := fun _ _ => .ok none }

/-- Spec scenario S6 start state: `throw_detector` registered before
`always_detector`, both enabled. -/
def c3_state0 : EngineState :=
  { running := true,
    detectors := [("throw_detector", throwDetector), ("always_detector", alwaysDetector)] }

/-- Same registry shape, but the entry named `throw_detector` never throws —
an errorless run to compare observables against. -/
def c3_noop_state0 : EngineState :=
  { running := true,
    detectors := [("throw_detector", noopDetector), ("always_detector", alwaysDetector)] }

/-- Submit-then-process five valid trades. -/
def c3_ops : List EngineOp :=
  [.submit 100 (mkTrade "T1" "I" "A" 1), .workerPop 10,
   .submit 100 (mkTrade "T2" "I" "A" 2), .workerPop 10,
   .submit 100 (mkTrade "T3" "I" "A" 3), .workerPop 10,
   .submit 100 (mkTrade "T4" "I" "A" 4), .workerPop 10,
   .submit 100 (mkTrade "T5" "I" "A" 5), .workerPop 10]

/-- S6 final state with the throwing detector. -/
def c3_final : EngineState := engineRun c3_state0 c3_ops

/-- S6 final state with the never-throwing replacement. -/
def c3_noop_final : EngineState := engineRun c3_noop_state0 c3_ops

/-- A running engine whose memory pool is exhausted. -/
def c4_state : EngineState := { running := true, poolFree := 0 }

/-- A running engine whose ingress queue is full (capacity 1, one queued
trade) while the pool still has slots. -/
def c4_full_state : EngineState :=
  { running := true, poolFree := 10, queueCapacity := 1,
    queue := [mkTrade "Q0" "I" "A" 0] }

/-- State after submitting one valid trade and processing it with a measured
duration of 100 ns (no detectors registered). -/
def c5_state : EngineState :=
  engineRun initEngine [.submit 100 (mkTrade "T1" "I" "A" 1), .workerPop 100]

/-- A context with `lookback_window = 0` holding one trade at t=5, as left by
processing that trade. -/
def c7_state : EngineState :=
  process_trade_internal
    { running := true, contextCache := [("I_A", { lookback_window := 0 })] }
    (mkTrade "P1" "I" "A" 5)

/-- A second trade at the same timestamp t=5 for the same key. -/
def c7_trade : TradeData := mkTrade "P2" "I" "A" 5

/-- Context produced by one update on a fresh (default) context. -/
def c8_ctx : HistoricalContext := updateContext {} (mkTrade "T1" "I" "A" 10)

/-- Trade with an underscore inside the instrument symbol. -/
def c9_tA : TradeData := mkTrade "TA" "A_B" "C" 10

/-- Trade with an underscore inside the account id, same cache key. -/
def c9_tB : TradeData := mkTrade "TB" "A" "B_C" 10

/-- Context snapshot seen when processing `c9_tB` right after `c9_tA`. -/
def c9_snapshot : HistoricalContext :=
  contextSnapshot (process_trade_internal { running := true } c9_tA) c9_tB

/-- A context with `lookback_window = 0` and one strictly older retained
trade. -/
def c7w_ctx : HistoricalContext :=
  { lookback_window := 0, recent_trades := [mkTrade "P0" "I" "A" 3] }

/-! ### Helper lemmas -/

/-- Any state projection untouched by every fan-out iteration is untouched by
the whole fan-out. -/
theorem detectorFanout_proj {α : Type} (f : EngineState → α) (trade : TradeData)
    (context : HistoricalContext)
    (hf : ∀ st d, f (fanoutStep trade context st d) = f st) :
    ∀ (ds : List (String × Detector)) (s : EngineState),
      f (detectorFanout trade context s ds) = f s := by
  intro ds
  induction ds with
  | nil => intro s; rfl
  | cons d rest ih =>
      intro s
      have hstep : detectorFanout trade context s (d :: rest)
          = detectorFanout trade context (fanoutStep trade context s d) rest := rfl
      rw [hstep, ih, hf]

theorem fanoutStep_peak (trade : TradeData) (context : HistoricalContext)
    (st : EngineState) (d : String × Detector) :
    (fanoutStep trade context st d).peak_processing_time_ns
      = st.peak_processing_time_ns := by
  unfold fanoutStep
  cases d.2.detect trade context with
  | ok o => cases o <;> rfl
  | error msg => rfl

theorem fanoutStep_trades (trade : TradeData) (context : HistoricalContext)
    (st : EngineState) (d : String × Detector) :
    (fanoutStep trade context st d).trades_processed = st.trades_processed := by
  unfold fanoutStep
  cases d.2.detect trade context with
  | ok o => cases o <;> rfl
  | error msg => rfl

theorem fanoutStep_queue (trade : TradeData) (context : HistoricalContext)
    (st : EngineState) (d : String × Detector) :
    (fanoutStep trade context st d).queue = st.queue := by
  unfold fanoutStep
  cases d.2.detect trade context with
  | ok o => cases o <;> rfl
  | error msg => rfl

theorem fanoutStep_statistics (trade : TradeData) (context : HistoricalContext)
    (st : EngineState) (d : String × Detector) :
    (fanoutStep trade context st d).statistics = st.statistics := by
  unfold fanoutStep
  cases d.2.detect trade context with
  | ok o => cases o <;> rfl
  | error msg => rfl

theorem process_trade_internal_peak (s : EngineState) (trade : TradeData) :
    (process_trade_internal s trade).peak_processing_time_ns
      = s.peak_processing_time_ns := by
  unfold process_trade_internal
  rw [detectorFanout_proj _ _ _ (fanoutStep_peak _ _)]

theorem process_trade_internal_trades (s : EngineState) (trade : TradeData) :
    (process_trade_internal s trade).trades_processed = s.trades_processed := by
  unfold process_trade_internal
  rw [detectorFanout_proj _ _ _ (fanoutStep_trades _ _)]

theorem process_trade_internal_queue (s : EngineState) (trade : TradeData) :
    (process_trade_internal s trade).queue = s.queue := by
  unfold process_trade_internal
  rw [detectorFanout_proj _ _ _ (fanoutStep_queue _ _)]

theorem process_trade_internal_statistics (s : EngineState) (trade : TradeData) :
    (process_trade_internal s trade).statistics = s.statistics := by
  unfold process_trade_internal
  rw [detectorFanout_proj _ _ _ (fanoutStep_statistics _ _)]

theorem worker_step_peak (s : EngineState) (trade : TradeData) (delta : Nat) :
    (worker_step s trade delta).peak_processing_time_ns
      = max s.peak_processing_time_ns delta := by
  unfold worker_step
  dsimp only
  rw [process_trade_internal_peak]
  split <;> omega

theorem worker_step_trades (s : EngineState) (trade : TradeData) (delta : Nat) :
    (worker_step s trade delta).trades_processed = s.trades_processed + 1 := by
  unfold worker_step
  dsimp only
  rw [process_trade_internal_trades]

theorem worker_step_queue (s : EngineState) (trade : TradeData) (delta : Nat) :
    (worker_step s trade delta).queue = s.queue := by
  unfold worker_step
  dsimp only
  rw [process_trade_internal_queue]

theorem worker_step_statistics (s : EngineState) (trade : TradeData) (delta : Nat) :
    (worker_step s trade delta).statistics = s.statistics := by
  unfold worker_step
  dsimp only
  rw [process_trade_internal_statistics]

theorem process_trade_statistics (s : EngineState) (now : Int) (trade : TradeData) :
    (process_trade s now trade).1.statistics = s.statistics := by
  unfold process_trade
  split_ifs <;> rfl

theorem toggle_pattern_statistics (s : EngineState) (name : String) (flag : Bool) :
    (toggle_pattern s name flag).statistics = s.statistics := by
  unfold toggle_pattern
  cases assocFind s.detectors name <;> rfl

theorem update_pattern_config_statistics (s : EngineState) (name : String)
    (cfg : PatternConfig) :
    (update_pattern_config s name cfg).statistics = s.statistics := by
  unfold update_pattern_config
  cases assocFind s.detectors name <;> rfl

theorem applyOp_statistics (s : EngineState) (op : EngineOp) :
    (applyOp s op).statistics = s.statistics := by
  cases op with
  | submit now trade => exact process_trade_statistics s now trade
  | workerPop delta =>
      unfold applyOp
      cases s.queue with
      | nil => rfl
      | cons trade rest => rw [worker_step_statistics]
  | toggle name flag => exact toggle_pattern_statistics s name flag
  | updateConfig name cfg => exact update_pattern_config_statistics s name cfg
  | registerDetector name d => rfl

theorem engineRun_statistics (ops : List EngineOp) :
    ∀ s : EngineState, (engineRun s ops).statistics = s.statistics := by
  induction ops with
  | nil => intro s; rfl
  | cons op rest ih =>
      intro s
      have hstep : engineRun s (op :: rest) = engineRun (applyOp s op) rest := rfl
      rw [hstep, ih, applyOp_statistics]

theorem validate_eq_spec (now : Int) (t : TradeData) :
    validate_trade_data now t = spec_is_valid now t := by
  have hspec : spec_is_valid now t = (t.is_valid && decide (t.timestamp ≤ now)) := by
    simp [spec_is_valid, TradeData.is_valid, Bool.and_assoc]
  unfold validate_trade_data
  split_ifs with h1 h2 h3
  · rw [hspec, h1, Bool.false_and]
  · have hd : decide (t.timestamp ≤ now) = false := decide_eq_false (by omega)
    rw [hspec, hd, Bool.and_false]
  · exfalso
    have hv : t.is_valid = true := by
      cases hb : t.is_valid
      · exact absurd hb h1
      · rfl
    simp only [TradeData.is_valid, Bool.and_eq_true, decide_eq_true_eq] at hv
    obtain ⟨⟨⟨⟨-, -⟩, hq⟩, hp⟩, -⟩ := hv
    rcases h3 with h | h
    · exact absurd hp (not_lt.mpr h)
    · omega
  · have hv : t.is_valid = true := by
      cases hb : t.is_valid
      · exact absurd hb h1
      · rfl
    have hd : decide (t.timestamp ≤ now) = true := decide_eq_true (by omega)
    rw [hspec, hv, hd, Bool.true_and]

/-- Claim C1: while the engine is running, `process_trade` accepts a trade
only if it satisfies the spec's `is_valid` predicate (non-empty `trade_id`
and `instrument_symbol`, positive `quantity`, `price` and `value`, and
`timestamp ≤ now`); a trade failing any conjunct is rejected at submit with
`false`; and the code's validation predicate `validate_trade_data` is
logically equivalent to the spec's predicate. -/
theorem c1_validation_equivalence (now : Int) (t : TradeData) (s : EngineState) :
    validate_trade_data now t = spec_is_valid now t
    ∧ (s.running = true → spec_is_valid now t = false →
        process_trade s now t
          = ({ s with log := s.log ++ [.invalidTrade t.trade_id] }, false))
    ∧ ((process_trade s now t).2 = true → spec_is_valid now t = true) := by
  have hequiv := validate_eq_spec now t
  refine ⟨hequiv, ?_, ?_⟩
  · intro hr hsf
    have hval : validate_trade_data now t = false := by rw [hequiv, hsf]
    simp [process_trade, hr, hval]
  · intro hacc
    by_contra hne
    have hsf : spec_is_valid now t = false := by
      cases hb : spec_is_valid now t
      · rfl
      · exact absurd hb hne
    have hval : validate_trade_data now t = false := by rw [hequiv, hsf]
    unfold process_trade at hacc
    by_cases hr : s.running = false
    · simp [hr] at hacc
    · simp [hr, hval] at hacc

/-- Witness for C1 at a concrete input: a trade with an empty `trade_id` is
invalid per the spec predicate and is rejected at submit with `false`. -/
theorem c1_validation_equivalence_witness :
    spec_is_valid 100 (mkTrade "" "I" "A" 1) = false
    ∧ process_trade initEngine 100 (mkTrade "" "I" "A" 1)
        = ({ initEngine with
              log := initEngine.log ++ [.invalidTrade (mkTrade "" "I" "A" 1).trade_id] },
           false) :=
  ⟨by decide,
   (c1_validation_equivalence 100 (mkTrade "" "I" "A" 1) initEngine).2.1 rfl (by decide)⟩

/-- Claim C2: the context update appends the processed trade, removes exactly
the previously retained trades strictly older than
`trade.timestamp - lookback_window` (pruning relative to the trade's
timestamp, so entries at or after the trade's timestamp are never expunged),
and the snapshot contains the triggering trade; concretely (scenario S3),
with a 60-second window and prior trades at t=0s and t=30s, processing the
t=90s trade yields a snapshot holding exactly the trades at 30s and 90s. -/
theorem c2_sliding_window_prune (ctx : HistoricalContext) (trade : TradeData)
    (h : 0 ≤ ctx.lookback_window) :
    (updateContext ctx trade).recent_trades
      = ctx.recent_trades.filter
          (fun t => decide (trade.timestamp - ctx.lookback_window ≤ t.timestamp))
        ++ [trade]
    ∧ trade ∈ (updateContext ctx trade).recent_trades
    ∧ (∀ t ∈ ctx.recent_trades, trade.timestamp ≤ t.timestamp →
        t ∈ (updateContext ctx trade).recent_trades)
    ∧ (contextSnapshot s3_state2 s3_trade90).recent_trades.map (fun t => t.timestamp)
        = [30, 90] := by
  have hmain :
      (updateContext ctx trade).recent_trades
        = ctx.recent_trades.filter
            (fun t => decide (trade.timestamp - ctx.lookback_window ≤ t.timestamp))
          ++ [trade] := by
    unfold updateContext
    simp only [List.filter_append]
    have hsingle :
        [trade].filter
            (fun t =>
              !decide (t.timestamp < trade.timestamp - ctx.lookback_window))
          = [trade] := by
      have hc :
          (!decide (trade.timestamp < trade.timestamp - ctx.lookback_window)) = true := by
        simp only [Bool.not_eq_true', decide_eq_false_iff_not, not_lt]
        omega
      simp [List.filter, hc]
    rw [hsingle]
    congr 1
    apply List.filter_congr
    intro t _
    rw [← decide_not]
    exact decide_eq_decide.mpr not_lt
  refine ⟨hmain, ?_, ?_, by decide⟩
  · rw [hmain]
    exact List.mem_append_right _ (List.mem_singleton.mpr rfl)
  · intro t ht hle
    rw [hmain]
    apply List.mem_append_left
    rw [List.mem_filter]
    refine ⟨ht, ?_⟩
    simp only [decide_eq_true_eq]
    omega

/-- Witness for C2 at a concrete input: the triggering t=90s trade is in its
own snapshot for the S3 window. -/
theorem c2_sliding_window_prune_witness :
    s3_trade90 ∈ (updateContext
        { lookback_window := 60,
          recent_trades := [mkTrade "S3a" "INST1" "ACC1" 0, mkTrade "S3b" "INST1" "ACC1" 30] }
        s3_trade90).recent_trades :=
  (c2_sliding_window_prune
      { lookback_window := 60,
        recent_trades := [mkTrade "S3a" "INST1" "ACC1" 0, mkTrade "S3b" "INST1" "ACC1" 30] }
      s3_trade90 (by decide)).2.1

/-- Claim C3 counterexample: the code maintains no `detector_errors` counter.
After the S6 run (five trades through a throwing `throw_detector` plus
`always_detector`), every statistic the engine exposes via `get_statistics`
is identical to the same run with a never-throwing detector in
`throw_detector`'s place, even though five detector errors were caught and
logged — so no counter recorded the errors. -/
theorem c3_counterexample :
    get_statistics c3_final 0 = get_statistics c3_noop_final 0
    ∧ detector_error_count c3_final "throw_detector" = 5
    ∧ detector_error_count c3_noop_final "throw_detector" = 0 := by
  have h1 : c3_final.trades_processed = c3_noop_final.trades_processed := by decide
  have h2 : c3_final.alerts_generated = c3_noop_final.alerts_generated := by decide
  have h3 : c3_final.queue = c3_noop_final.queue := by decide
  have h4 : c3_final.statistics = c3_noop_final.statistics := by decide
  have h5 : c3_final.last_stats_update = c3_noop_final.last_stats_update := by decide
  refine ⟨?_, by decide, by decide⟩
  unfold get_statistics
  rw [h1, h2, h3, h4, h5]

/-- Claim C3 (amended): when a detector's `detect` call signals an error, the
worker catches it, records a detector-error log entry against that detector's
name, and continues with the remaining detectors; the trade is not re-queued
and still counts in `trades_processed`, and other detectors' alerts are still
produced.  Concretely (scenario S6), with `throw_detector` registered before
`always_detector`, five submitted trades yield `alerts_generated = 5`, five
detector-error log records for `throw_detector`, and `trades_processed = 5`. -/
theorem c3_detector_error_isolation :
    (∀ (s : EngineState) (t : TradeData) (delta : Nat),
        (worker_step s t delta).trades_processed = s.trades_processed + 1
        ∧ (worker_step s t delta).queue = s.queue)
    ∧ c3_final.alerts_generated = 5
    ∧ detector_error_count c3_final "throw_detector" = 5
    ∧ c3_final.trades_processed = 5 :=
  ⟨fun s t delta => ⟨worker_step_trades s t delta, worker_step_queue s t delta⟩,
   by decide, by decide, by decide⟩

/-- Claim C4 counterexample: the code maintains no `submit_drops` counter.
A submit rejected by pool exhaustion returns `false` and changes nothing but
the log; in particular `get_statistics` is unchanged, so no drop counter was
incremented.  An ingress-full submit likewise returns `false` with the pool
free count unchanged. -/
theorem c4_counterexample :
    (process_trade c4_state 100 (mkTrade "TD" "I" "A" 1)).2 = false
    ∧ (process_trade c4_state 100 (mkTrade "TD" "I" "A" 1)).1.log
        = c4_state.log ++ [.poolExhausted "TD"]
    ∧ get_statistics (process_trade c4_state 100 (mkTrade "TD" "I" "A" 1)).1 0
        = get_statistics c4_state 0
    ∧ (process_trade c4_full_state 100 (mkTrade "TD" "I" "A" 1)).2 = false
    ∧ (process_trade c4_full_state 100 (mkTrade "TD" "I" "A" 1)).1.poolFree
        = c4_full_state.poolFree :=
  ⟨by decide, by decide, by decide, by decide, by decide⟩

/-- Claim C4 (amended): for a valid trade submitted while running, pool
exhaustion makes `process_trade` reject the trade with `false` after logging
(no drop counter exists to increment; the state changes only by the log
record), and a full ingress queue makes it deallocate the already-allocated
slot — leaving the pool free count unchanged — log, and return `false`. -/
theorem c4_resource_exhaustion (s : EngineState) (now : Int) (t : TradeData)
    (h1 : s.running = true) (h2 : validate_trade_data now t = true) :
    (s.poolFree = 0 →
      process_trade s now t
        = ({ s with log := s.log ++ [.poolExhausted t.trade_id] }, false))
    ∧ (0 < s.poolFree → s.queueCapacity ≤ s.queue.length →
        process_trade s now t
          = ({ s with log := s.log ++ [.queueFull t.trade_id] }, false)) := by
  constructor
  · intro hp
    simp [process_trade, h1, h2, hp]
  · intro hp hq
    have hp0 : ¬s.poolFree = 0 := by omega
    simp only [process_trade, h1, Bool.true_eq_false, if_false, h2, if_neg hp0,
      if_pos hq, reduceIte]
    have hpool : s.poolFree - 1 + 1 = s.poolFree := by omega
    rw [hpool]

/-- Witness for C4 at a concrete input: a valid trade submitted to a running
engine with an exhausted pool is rejected with only a log record. -/
theorem c4_resource_exhaustion_witness :
    process_trade c4_state 100 (mkTrade "W" "I" "A" 1)
      = ({ c4_state with
            log := c4_state.log ++ [.poolExhausted (mkTrade "W" "I" "A" 1).trade_id] },
         false) :=
  (c4_resource_exhaustion c4_state 100 (mkTrade "W" "I" "A" 1) rfl (by decide)).1 rfl

/-- Claim C5 counterexample: after one trade processed with a measured
duration of 100 ns, the counters loaded for a snapshot are
`total_processing_time_ns = 100` and `trades_processed = 1`, yet the
snapshot's `avg_processing_time_ns` is 0, not `100 / max 1 1 = 100`:
`get_statistics` never computes the quotient. -/
theorem c5_counterexample :
    c5_state.total_processing_time_ns = 100
    ∧ c5_state.trades_processed = 1
    ∧ (get_statistics c5_state 0).avg_processing_time_ns
        ≠ c5_state.total_processing_time_ns / max c5_state.trades_processed 1 :=
  ⟨by decide, by decide, by decide⟩

/-- Claim C5 (amended): `get_statistics` copies `avg_processing_time_ns`
unchanged from the stored `statistics_` record, which no operation ever
updates; hence every snapshot taken on any run from a fresh engine reports
`avg_processing_time_ns = 0` regardless of the loaded counter values. -/
theorem c5_avg_never_recomputed :
    (∀ (s : EngineState) (now : Int),
        (get_statistics s now).avg_processing_time_ns
          = s.statistics.avg_processing_time_ns)
    ∧ ∀ (ops : List EngineOp) (now : Int),
        (get_statistics (engineRun initEngine ops) now).avg_processing_time_ns = 0 := by
  have hproj : ∀ (s : EngineState) (now : Int),
      (get_statistics s now).avg_processing_time_ns
        = s.statistics.avg_processing_time_ns := by
    intro s now
    simp only [get_statistics]
    split <;> rfl
  refine ⟨hproj, ?_⟩
  intro ops now
  rw [hproj, engineRun_statistics]
  rfl

/-- Claim C6: the peak counter is a running maximum — it never decreases
across worker updates, and after any sequence of processed trades it is at
least every per-trade duration observed in that sequence. -/
theorem c6_peak_running_max (s : EngineState) (l : List (TradeData × Nat)) :
    s.peak_processing_time_ns ≤ (workerRun s l).peak_processing_time_ns
    ∧ ∀ p ∈ l, p.2 ≤ (workerRun s l).peak_processing_time_ns := by
  induction l generalizing s with
  | nil => exact ⟨le_refl _, by simp⟩
  | cons p rest ih =>
      have hstep : workerRun s (p :: rest) = workerRun (worker_step s p.1 p.2) rest := rfl
      have hmono := (ih (worker_step s p.1 p.2)).1
      constructor
      · rw [hstep]
        refine le_trans ?_ hmono
        rw [worker_step_peak]
        exact le_max_left _ _
      · intro q hq
        rcases List.mem_cons.mp hq with hcase | hcase

        · rw [hstep]
          refine le_trans ?_ hmono
          rw [worker_step_peak, hcase]
          exact le_max_right _ _
        · rw [hstep]
          exact (ih (worker_step s p.1 p.2)).2 q hcase

/-- Witness for C6 at a concrete input: one processed trade with a 7 ns
duration pushes the peak to at least 7. -/
theorem c6_peak_running_max_witness :
    (7 : Nat) ≤ (workerRun initEngine
        [(mkTrade "T1" "I" "A" 1, 7)]).peak_processing_time_ns :=
  (c6_peak_running_max initEngine [(mkTrade "T1" "I" "A" 1, 7)]).2
    (mkTrade "T1" "I" "A" 1, 7) (by simp)

/-- Claim C7 counterexample: with `lookback_window = 0`, pruning removes only
trades strictly older than the triggering trade's timestamp, so after
processing a trade at t=5, processing a second trade at the same t=5 for the
same key yields a snapshot that still contains the first trade — not only the
triggering trade. -/
theorem c7_counterexample :
    mkTrade "P1" "I" "A" 5 ∈ (contextSnapshot c7_state c7_trade).recent_trades
    ∧ (contextSnapshot c7_state c7_trade).recent_trades ≠ [c7_trade] :=
  ⟨by decide, by decide⟩

/-- Claim C7 (amended): with `lookback_window = 0`, the context update prunes
exactly the retained trades strictly older than the triggering trade's
timestamp; hence the snapshot contains only the triggering trade provided
every previously retained trade is strictly older than it (retained trades
with an equal or later timestamp survive). -/
theorem c7_lookback_zero (ctx : HistoricalContext) (trade : TradeData)
    (h0 : ctx.lookback_window = 0)
    (hall : ∀ t ∈ ctx.recent_trades, t.timestamp < trade.timestamp) :
    (updateContext ctx trade).recent_trades = [trade] := by
  unfold updateContext
  simp only [h0, sub_zero, List.filter_append]
  have hnil :
      ctx.recent_trades.filter (fun t => !decide (t.timestamp < trade.timestamp)) = [] := by
    rw [List.filter_eq_nil_iff]
    intro t ht
    simpa using hall t ht
  have hone :
      [trade].filter (fun t => !decide (t.timestamp < trade.timestamp)) = [trade] := by
    have hc : (!decide (trade.timestamp < trade.timestamp)) = true := by
      simp
    simp [List.filter, hc]
  rw [hnil, hone, List.nil_append]

/-- Witness for C7 at a concrete input: with a zero window and one strictly
older retained trade, the update leaves exactly the triggering trade. -/
theorem c7_lookback_zero_witness :
    (updateContext c7w_ctx (mkTrade "P1" "I" "A" 9)).recent_trades
      = [mkTrade "P1" "I" "A" 9] :=
  c7_lookback_zero c7w_ctx (mkTrade "P1" "I" "A" 9) rfl (by decide)

/-- Claim C8 counterexample: after an update on a fresh context, the stored
`avg_volume` and `avg_price` are still 0 while the average volume and price
of the retained window (one trade of quantity 100 at price 10) are 100 and
10 — the derived statistics were not recomputed. -/
theorem c8_counterexample :
    c8_ctx.avg_volume = 0
    ∧ spec_avg_volume c8_ctx.recent_trades = 100
    ∧ c8_ctx.avg_volume ≠ spec_avg_volume c8_ctx.recent_trades
    ∧ c8_ctx.avg_price = 0
    ∧ spec_avg_price c8_ctx.recent_trades = 10
    ∧ c8_ctx.avg_price ≠ spec_avg_price c8_ctx.recent_trades := by
  have hlist : c8_ctx.recent_trades = [mkTrade "T1" "I" "A" 10] := by decide
  have hvol : spec_avg_volume c8_ctx.recent_trades = 100 := by
    rw [hlist]
    norm_num [spec_avg_volume, mkTrade]
  have hpr : spec_avg_price c8_ctx.recent_trades = 10 := by
    rw [hlist]
    norm_num [spec_avg_price, mkTrade]
  have hv0 : c8_ctx.avg_volume = 0 := by decide
  have hp0 : c8_ctx.avg_price = 0 := by decide
  refine ⟨hv0, hvol, ?_, hp0, hpr, ?_⟩
  · rw [hv0, hvol]
    norm_num
  · rw [hp0, hpr]
    norm_num

/-- Claim C8 (amended): the context update of `process_trade_internal` does
not recompute the derived statistics — `avg_volume`, `avg_price` and
`price_volatility` are carried over unchanged from the previous context value
(0 for a freshly created context), whatever the retained window contains. -/
theorem c8_stats_carried_over (ctx : HistoricalContext) (trade : TradeData) :
    (updateContext ctx trade).avg_volume = ctx.avg_volume
    ∧ (updateContext ctx trade).avg_price = ctx.avg_price
    ∧ (updateContext ctx trade).price_volatility = ctx.price_volatility :=
  ⟨rfl, rfl, rfl⟩

/-- Claim C9: the trades ("A_B", "C") and ("A", "B_C") have distinct
instrument symbols but the same `context_cache_` key `"A_B_C"`, so the second
trade's update reads the entry written by the first and its snapshot contains
a trade whose instrument differs from its own — the invariant that all
retained trades share the key's instrument fails. -/
theorem c9_context_key_collision :
    contextKey c9_tA = contextKey c9_tB
    ∧ c9_tA.instrument_symbol ≠ c9_tB.instrument_symbol
    ∧ c9_tA ∈ c9_snapshot.recent_trades
    ∧ ∃ t ∈ c9_snapshot.recent_trades, t.instrument_symbol ≠ c9_tB.instrument_symbol :=
  ⟨by decide, by decide, by decide, by decide⟩

/-- Claim C10: for a name absent from the detector registry, `toggle_pattern`
and `update_pattern_config` only append a warning log record: the registry is
unchanged (no entry created, no enabled flag or configuration modified) and
every other engine-state component is untouched. -/
theorem c10_unknown_pattern_frame (s : EngineState) (name : String) (flag : Bool)
    (cfg : PatternConfig) (h : assocFind s.detectors name = none) :
    toggle_pattern s name flag = { s with log := s.log ++ [.patternNotFound name] }
    ∧ update_pattern_config s name cfg
        = { s with log := s.log ++ [.patternNotFound name] }
    ∧ (toggle_pattern s name flag).detectors = s.detectors
    ∧ (update_pattern_config s name cfg).detectors = s.detectors := by
  have h1 : toggle_pattern s name flag
      = { s with log := s.log ++ [.patternNotFound name] } := by
    unfold toggle_pattern
    rw [h]
  have h2 : update_pattern_config s name cfg
      = { s with log := s.log ++ [.patternNotFound name] } := by
    unfold update_pattern_config
    rw [h]
  exact ⟨h1, h2, by rw [h1], by rw [h2]⟩

/-- Witness for C10 at a concrete input: toggling an unregistered pattern
name on a fresh engine only logs the warning. -/
theorem c10_unknown_pattern_frame_witness :
    toggle_pattern initEngine "ghost" true
      = { initEngine with log := initEngine.log ++ [.patternNotFound "ghost"] } :=
  (c10_unknown_pattern_frame initEngine "ghost" true {} rfl).1

end DharmaGuard
